import Mathlib

/-!
Shallow embedding of the conversion-job pipeline of `src/app/main.py`
(Telegram media-conversion bot): session state, media fetch with size
ceiling, ffmpeg transcode invocations, reply delivery and the exception
handler of `process_media`.  External effects (Telegram API calls, the
ffmpeg process, the filesystem) are modelled by an oracle environment
`Env` and an explicit `World` trace of file-system and network effects.
-/

namespace MassiveHelper

/-- Kinds of inbound media that reach `process_media`; the aiogram router
filter is `F.video | F.video_note | F.voice | F.audio`. -/
inductive MediaKind
  | video
  | video_note
  | voice
  | audio
deriving DecidableEq, Repr

/-- The action names stored in FSM state data by the selection handlers
(`update_data(action=...)` in `select_audio`, `select_video` and the
reply-keyboard handlers). -/
inductive Action
  | video_to_circle
  | circle_to_video
  | audio_from_video
  | audio_from_circle
  | audio_from_voice
  | audio_to_voice
  | media_to_voice
deriving DecidableEq, Repr

/-- The single FSM state `Flow.waiting_input` of the source's `StatesGroup`. -/
inductive FlowState
  | waiting_input
deriving DecidableEq, Repr

/-- Per-chat aiogram `FSMContext`: the FSM state plus the data dict, whose
only key used by the source is `action`. -/
structure SessionData where
  flowState : Option FlowState
  action : Option Action
deriving DecidableEq, Repr

/-- A Telegram file attribute of a message (`message.video`,
`message.audio`, ...): its `file_id` and, for audio, its `file_name`. -/
structure TgFile where
  file_id : String
  file_name : Option String
deriving DecidableEq, Repr

/-- An inbound Telegram message restricted to the media attributes the
handler inspects. -/
structure Message where
  video : Option TgFile
  video_note : Option TgFile
  voice : Option TgFile
  audio : Option TgFile
deriving DecidableEq, Repr

/-- A message carrying exactly one media attribute, of the given kind; this
is the shape of real inbound Telegram media messages. -/
def mkMsg : MediaKind → TgFile → Message
  | MediaKind.video, f => ⟨some f, none, none, none⟩
  | MediaKind.video_note, f => ⟨none, some f, none, none⟩
  | MediaKind.voice, f => ⟨none, none, some f, none⟩
  | MediaKind.audio, f => ⟨none, none, none, some f⟩

/-- A local temporary file path.  `tempfile.mkstemp` allocates fresh names
(exclusive creation); we model the fresh-name guarantee with the allocation
counter `id`, and keep the extension/suffix part of the name explicit
because the ffmpeg helpers derive output names from it via
`src.rsplit(".", 1)[0] + newSuffix`. -/
structure LocalPath where
  id : Nat
  suffix : String
deriving DecidableEq, Repr

/-- Rendering of a `LocalPath` as the string passed to ffmpeg. -/
def pathStr (p : LocalPath) : String :=
  "/tmp/tmp" ++ toString p.id ++ p.suffix

/-- File-system and network effect trace: the `mkstemp` allocation counter,
every temp file created, every temp file deleted, and the number of content
downloads issued.  The source contains no `os.remove`/`os.unlink`/cleanup
call anywhere, so no operation of this development ever appends to
`deleted`. -/
structure World where
  nextId : Nat
  created : List LocalPath
  deleted : List LocalPath
  downloads : Nat
deriving DecidableEq, Repr

/-- The temp files of `w` still present on storage. -/
def remaining (w : World) : List LocalPath :=
  w.created.filter (fun p => !(w.deleted.contains p))

/-- Result of one `subprocess.run` of ffmpeg, as observed by `run_ffmpeg`:
exit status and captured stderr. -/
structure FfResult where
  returncode : Int
  stderr : String

/-- The argument record of one `subprocess.run(cmd, stdout=PIPE,
stderr=PIPE, text=True)` call issued by `run_ffmpeg`.  The source passes no
`timeout=` argument, so `timeoutArg` is always `none`. -/
structure SubprocessCall where
  cmd : List String
  timeoutArg : Option Nat
deriving DecidableEq, Repr

/-- The exceptions that can be raised inside the `try` block of
`process_media`: the `HTTPException` raised by `tg_download_to_temp`, the
`RuntimeError` raised by `run_ffmpeg`, a network failure of
`bot.download`, and a Telegram send failure during reply delivery. -/
inductive PipeError
  | httpException (status : Nat) (detail : String)
  | runtimeError (msg : String)
  | downloadError
  | telegramSendError
deriving DecidableEq, Repr

/-- An outbound reply: a plain `message.answer` text or a media file sent
via `answer_video_note` / `answer_video` / `answer_audio` / `answer_voice`. -/
inductive Reply
  | text (s : String)
  | file (kind : MediaKind) (p : LocalPath)
deriving DecidableEq, Repr

/-- Oracle environment for one run: what `bot.get_file` reports as
`file_size`, the configured `MAX_FILE_MB`, whether `bot.download`
succeeds, the result of the i-th ffmpeg invocation of the run, and whether
the two delivery sends (`answer_*` file reply, then `answer("Готово ✅")`)
succeed. -/
structure Env where
  maxFileMb : Nat
  fileSize : Option Nat
  downloadOk : Bool
  ffRes : Nat → FfResult
  sendFileOk : Bool
  sendDoneOk : Bool

/-- Default of `MAX_FILE_MB = int(os.getenv("MAX_FILE_MB", "18"))`. -/
def MAX_FILE_MB_DEFAULT : Nat := 18

/-- Python string slicing `s[-n:]` (for n > 0): the last `min n (length s)`
characters of `s`. -/
def py_slice_last (n : Nat) (s : String) : String :=
  String.mk (s.data.drop (s.data.length - n))

/-- `bytes_to_mb` rounds `n / (1024*1024)` to two decimals; we model the
displayed value in hundredths of a MB (the float rounding of the display
is abstracted to integer division; no claim depends on it). -/
def bytes_to_mb (n : Nat) : Nat :=
  n * 100 / (1024 * 1024)

/-- The `detail` string of the `HTTPException` raised on an oversized file:
`f"Файл слишком большой: {bytes_to_mb(size)} MB (лимит {MAX_FILE_MB} MB)"`. -/
def too_large_detail (size maxMb : Nat) : String :=
  "Файл слишком большой: " ++ toString (bytes_to_mb size) ++
    " MB (лимит " ++ toString maxMb ++ " MB)"

/-- `run_ffmpeg(cmd)`: runs `subprocess.run(cmd, stdout=PIPE, stderr=PIPE,
text=True)` — with no `timeout=` argument — and raises
`RuntimeError(proc.stderr[-4000:])` when the return code is non-zero.
Returns the issued call record together with the outcome. -/
def run_ffmpeg (cmd : List String) (res : FfResult) :
    SubprocessCall × Except PipeError Unit :=
  (⟨cmd, none⟩,
   if res.returncode ≠ 0 then
     Except.error (PipeError.runtimeError (py_slice_last 4000 res.stderr))
   else
     Except.ok ())

/-- `fd, path = tempfile.mkstemp(suffix=suffix); os.close(fd)`: creates a
fresh uniquely-named temp file.  Modelled by the allocation counter. -/
def mkstemp (suffix : String) (w : World) : LocalPath × World :=
  let p : LocalPath := ⟨w.nextId, suffix⟩
  (p, { w with nextId := w.nextId + 1, created := w.created ++ [p] })

/-- The `mkstemp` + `bot.download` tail of `tg_download_to_temp`: the temp
file is created first, then the content download is issued; a download
failure raises after the file already exists. -/
def download_body (suffix : String) (env : Env) (w : World) :
    Except PipeError LocalPath × World :=
  let (p, w₁) := mkstemp suffix w
  let w₂ := { w₁ with downloads := w₁.downloads + 1 }
  if env.downloadOk then (Except.ok p, w₂) else (Except.error PipeError.downloadError, w₂)

/-- `tg_download_to_temp(file_id, suffix)`: `bot.get_file`, then the size
check `if size is not None and size > MAX_FILE_MB * 1024 * 1024: raise
HTTPException(400, detail)`, then `mkstemp` and `bot.download`.  The size
check precedes both the temp-file creation and the download request. -/
def tg_download_to_temp (_file_id suffix : String) (env : Env) (w : World) :
    Except PipeError LocalPath × World :=
  match env.fileSize with
  | some size =>
    if size > env.maxFileMb * 1024 * 1024 then
      (Except.error (PipeError.httpException 400 (too_large_detail size env.maxFileMb)), w)
    else
      download_body suffix env w
  | none => download_body suffix env w

/-- `ff_video_to_circle`: `dst = src.rsplit(".", 1)[0] + "_circle.mp4"`,
square crop/scale, keep AAC audio. -/
def ff_video_to_circle (src : LocalPath) : List String × LocalPath :=
  let dst : LocalPath := ⟨src.id, "_circle.mp4"⟩
  (["ffmpeg", "-y", "-i", pathStr src,
    "-vf", "crop=\x27min(iw,ih)\x27:\x27min(iw,ih)\x27,scale=480:480:flags=lanczos,fps=30,format=yuv420p",
    "-c:v", "libx264", "-preset", "veryfast", "-profile:v", "baseline", "-level", "3.0",
    "-pix_fmt", "yuv420p", "-c:a", "aac", "-b:a", "128k", "-ac", "2", "-ar", "48000",
    "-movflags", "+faststart", pathStr dst], dst)

/-- `ff_circle_to_video`: `dst = src.rsplit(".", 1)[0] + "_video.mp4"`. -/
def ff_circle_to_video (src : LocalPath) : List String × LocalPath :=
  let dst : LocalPath := ⟨src.id, "_video.mp4"⟩
  (["ffmpeg", "-y", "-i", pathStr src, "-c:v", "libx264", "-pix_fmt", "yuv420p",
    "-c:a", "aac", "-b:a", "128k", pathStr dst], dst)

/-- `ff_extract_audio`: `dst = src.rsplit(".", 1)[0] + ".mp3"`. -/
def ff_extract_audio (src : LocalPath) : List String × LocalPath :=
  let dst : LocalPath := ⟨src.id, ".mp3"⟩
  (["ffmpeg", "-y", "-i", pathStr src, "-vn", "-acodec", "libmp3lame",
    "-ar", "48000", "-b:a", "128k", pathStr dst], dst)

/-- `ff_to_mp3`: identical command shape to `ff_extract_audio`. -/
def ff_to_mp3 (src : LocalPath) : List String × LocalPath :=
  let dst : LocalPath := ⟨src.id, ".mp3"⟩
  (["ffmpeg", "-y", "-i", pathStr src, "-vn", "-acodec", "libmp3lame",
    "-ar", "48000", "-b:a", "128k", pathStr dst], dst)

/-- `ff_to_voice`: `dst = src.rsplit(".", 1)[0] + ".ogg"`, opus voice. -/
def ff_to_voice (src : LocalPath) : List String × LocalPath :=
  let dst : LocalPath := ⟨src.id, ".ogg"⟩
  (["ffmpeg", "-y", "-i", pathStr src, "-c:a", "libopus", "-b:a", "64k",
    "-vbr", "on", "-ac", "1", "-ar", "48000", pathStr dst], dst)

/-- One ffmpeg stage of a branch: from the source path, compute the command
and the destination path. -/
def FfStep : Type := LocalPath → List String × LocalPath

/-- Effects accumulated inside the `try` block of `process_media`. -/
structure Trace where
  replies : List Reply
  world : World
  calls : List SubprocessCall
deriving Repr

/-- Run the branch's ffmpeg stages in order: each stage invokes
`run_ffmpeg` once; a non-zero exit raises and no further stage runs; on
success the destination file now exists on storage. -/
def runSteps (src : LocalPath) (steps : List FfStep) (env : Env) (idx : Nat)
    (w : World) (acc : List SubprocessCall) :
    Except PipeError LocalPath × World × List SubprocessCall :=
  match steps with
  | [] => (Except.ok src, w, acc)
  | st :: rest =>
    match (run_ffmpeg (st src).1 (env.ffRes idx)).2 with
    | Except.error e =>
      (Except.error e, w, acc ++ [(run_ffmpeg (st src).1 (env.ffRes idx)).1])
    | Except.ok _ =>
      runSteps (st src).2 rest env (idx + 1)
        { w with created := w.created ++ [(st src).2] }
        (acc ++ [(run_ffmpeg (st src).1 (env.ffRes idx)).1])

/-- The delivery tail of a successful conversion branch: the `answer_*`
file reply followed by `answer("Готово ✅")`; a failure of either send
raises a Telegram exception, and the replies already sent remain sent. -/
def deliver (outKind : MediaKind) (dst : LocalPath) (env : Env) :
    List Reply × Option PipeError :=
  if env.sendFileOk then
    if env.sendDoneOk then
      ([Reply.file outKind dst, Reply.text "Готово ✅"], none)
    else
      ([Reply.file outKind dst], some PipeError.telegramSendError)
  else
    ([], some PipeError.telegramSendError)

/-- The common body of every conversion branch of `process_media`:
download the source to a temp file, run the branch's ffmpeg stage(s), then
deliver the output file (`answer_*`) followed by `answer("Готово ✅")`.
Replies sent before a raised exception remain sent; files created before a
raised exception remain on storage. -/
def convert (file_id suffix : String) (steps : List FfStep) (outKind : MediaKind)
    (env : Env) (w : World) : Trace × Option PipeError :=
  match tg_download_to_temp file_id suffix env w with
  | (Except.error e, w₁) => (⟨[], w₁, []⟩, some e)
  | (Except.ok src, w₁) =>
    match runSteps src steps env 0 w₁ [] with
    | (Except.error e, w₂, calls) => (⟨[], w₂, calls⟩, some e)
    | (Except.ok dst, w₂, calls) =>
      (⟨(deliver outKind dst env).1, w₂, calls⟩, (deliver outKind dst env).2)

/-- The wrong-kind fallback reply of `process_media`. -/
def wrong_kind_hint : String := "Это не подходит для выбранной функции. Попробуй снова 🙌"

/-- The reply produced by the `except` clauses of `process_media`:
`HTTPException` yields `f"⚠️ {e.detail}"`; every other exception yields the
fixed text `"❌ Ошибка обработки файла."` (the exception itself goes only to
the server log). -/
def except_reply : PipeError → Reply
  | PipeError.httpException _ detail => Reply.text ("⚠️ " ++ detail)
  | _ => Reply.text "❌ Ошибка обработки файла."

/-- `file_id` of an optional media attribute the branch guard has
established to be present. -/
def fid (o : Option TgFile) : String :=
  (o.getD ⟨"", none⟩).file_id

/-- The suffix choice of the `audio_to_voice` branch:
`".mp3" if (message.audio.file_name or "").endswith(".mp3") else ".ogg"`. -/
def voiceSuffix (o : Option TgFile) : String :=
  match o with
  | some f =>
    match f.file_name with
    | some n => if n.endsWith ".mp3" then ".mp3" else ".ogg"
    | none => ".ogg"
  | none => ".ogg"

/-- Result of one invocation of the `process_media` handler. -/
structure RunResult where
  replies : List Reply
  world : World
  calls : List SubprocessCall
  err : Option PipeError
  sd : SessionData
deriving DecidableEq, Repr

/-- The if-chain of `process_media` over the selected action and the
message's media attributes; the final `else` is the wrong-kind fallback
reply. -/
def dispatch (action : Action) (m : Message) (env : Env) (w : World) :
    Trace × Option PipeError :=
  if action = Action.video_to_circle ∧ m.video.isSome then
    convert (fid m.video) ".mp4" [ff_video_to_circle] MediaKind.video_note env w
  else if action = Action.circle_to_video ∧ m.video_note.isSome then
    convert (fid m.video_note) ".mp4" [ff_circle_to_video] MediaKind.video env w
  else if action = Action.audio_from_video ∧ m.video.isSome then
    convert (fid m.video) ".mp4" [ff_extract_audio] MediaKind.audio env w
  else if action = Action.audio_from_circle ∧ m.video_note.isSome then
    convert (fid m.video_note) ".mp4" [ff_extract_audio] MediaKind.audio env w
  else if action = Action.audio_from_voice ∧ m.voice.isSome then
    convert (fid m.voice) ".ogg" [ff_to_mp3] MediaKind.audio env w
  else if action = Action.audio_to_voice ∧ m.audio.isSome then
    convert (fid m.audio) (voiceSuffix m.audio) [ff_to_voice] MediaKind.voice env w
  else if action = Action.media_to_voice ∧ (m.video.isSome ∨ m.video_note.isSome) then
    convert (if m.video.isSome then fid m.video else fid m.video_note) ".mp4"
      [ff_extract_audio, ff_to_voice] MediaKind.voice env w
  else
    (⟨[Reply.text wrong_kind_hint], w, []⟩, none)

/-- `process_media(message, state)`: reads `action` from the FSM data and
returns silently when it is unset; otherwise runs the matching conversion
branch of the if-chain (falling through to the wrong-kind hint), with the
whole `try` body wrapped by the `except HTTPException` / `except Exception`
clauses, each of which sends exactly one reply and swallows the exception.
The handler never writes the FSM state or data, and never deletes a file. -/
def process_media (m : Message) (sd : SessionData) (env : Env) (w : World) : RunResult :=
  match sd.action with
  | none => ⟨[], w, [], none, sd⟩
  | some action =>
    { replies := (dispatch action m env w).1.replies ++
        (match (dispatch action m env w).2 with
          | none => []
          | some e => [except_reply e]),
      world := (dispatch action m env w).1.world,
      calls := (dispatch action m env w).1.calls,
      err := (dispatch action m env w).2,
      sd := sd }

/-- The accepted media kinds of each action, as read off the branch guards
of the if-chain in `process_media`. -/
def accepts : Action → MediaKind → Bool
  | Action.video_to_circle, MediaKind.video => true
  | Action.circle_to_video, MediaKind.video_note => true
  | Action.audio_from_video, MediaKind.video => true
  | Action.audio_from_circle, MediaKind.video_note => true
  | Action.audio_from_voice, MediaKind.voice => true
  | Action.audio_to_voice, MediaKind.audio => true
  | Action.media_to_voice, MediaKind.video => true
  | Action.media_to_voice, MediaKind.video_note => true
  | _, _ => false

/-- `await state.update_data(action=m)`: every operation-selection handler
(`select_audio`, `select_video` and the reply-keyboard function handlers)
performs exactly this write, overwriting any prior `action` value. -/
def select (sd : SessionData) (a : Action) : SessionData :=
  { sd with action := some a }

/-- `data.get("action")`: the current selection of the session. -/
def current (sd : SessionData) : Option Action :=
  sd.action

/-- `await state.clear()`: resets both the FSM state and the data dict. -/
def state_clear (_sd : SessionData) : SessionData :=
  ⟨none, none⟩

/-- Opening a category menu (`cb_audio`, `cb_video`, `on_text_menu_video`,
`on_text_menu_audio`): `set_state(Flow.waiting_input)` followed by
`update_data(action=None)`. -/
def open_category_menu (_sd : SessionData) : SessionData :=
  ⟨some FlowState.waiting_input, none⟩

/-- Handler of the `menu:audio` callback. -/
def cb_audio (sd : SessionData) : SessionData :=
  open_category_menu sd

/-- Handler of the `menu:video` callback. -/
def cb_video (sd : SessionData) : SessionData :=
  open_category_menu sd

/-- Handler of the `⬅ Назад` reply-keyboard button: `state.clear()`. -/
def on_text_back (sd : SessionData) : SessionData :=
  state_clear sd

/-- Handler of the `🎥 Видео → ⭕ Кружок` button:
`update_data(action="video_to_circle")`. -/
def on_text_v_to_circle (sd : SessionData) : SessionData :=
  select sd Action.video_to_circle

/-- Handler of the `⭕ Кружок → 🎥 Видео` button:
`update_data(action="circle_to_video")`. -/
def on_text_circle_to_v (sd : SessionData) : SessionData :=
  select sd Action.circle_to_video

/-! Concrete fixtures used by witnesses and counterexamples. -/

/-- An environment in which every external step succeeds and the declared
file size (1000 bytes) is under the default 18 MB ceiling. -/
def envOk : Env :=
  ⟨MAX_FILE_MB_DEFAULT, some 1000, true, fun _ => ⟨0, ""⟩, true, true⟩

/-- Like `envOk`, but every ffmpeg invocation exits with status 1 and
stderr "boom". -/
def envFfFail : Env :=
  ⟨MAX_FILE_MB_DEFAULT, some 1000, true, fun _ => ⟨1, "boom"⟩, true, true⟩

/-- Like `envOk`, but the declared size is 20000000 bytes, above the
default ceiling of 18 * 1024 * 1024 = 18874368 bytes. -/
def envBig : Env :=
  ⟨MAX_FILE_MB_DEFAULT, some 20000000, true, fun _ => ⟨0, ""⟩, true, true⟩

/-- Empty initial storage/network trace. -/
def w0 : World := ⟨0, [], [], 0⟩

/-- A session that selected `video_to_circle` and awaits media. -/
def sdVtc : SessionData :=
  ⟨some FlowState.waiting_input, some Action.video_to_circle⟩

/-- An inbound video message. -/
def msgV : Message := mkMsg MediaKind.video ⟨"vid1", none⟩

/-! ## Helper lemmas -/

/-- `py_slice_last` unfolded on its character list. -/
theorem py_slice_last_data (n : Nat) (s : String) :
    (py_slice_last n s).data = s.data.drop (s.data.length - n) := rfl

/-- Length of a Python tail slice. -/
theorem py_slice_last_length (n : Nat) (s : String) :
    (py_slice_last n s).length = s.data.length - (s.data.length - n) := by
  have h : (py_slice_last n s).length = (s.data.drop (s.data.length - n)).length := rfl
  rw [h, List.length_drop]

/-- A successful `download_body` returns the freshly allocated path and
advances the allocation counter by one. -/
theorem download_body_ok_ids (suffix : String) (env : Env) (w : World) (p : LocalPath)
    (w' : World) (h : download_body suffix env w = (Except.ok p, w')) :
    p.id = w.nextId ∧ w'.nextId = w.nextId + 1 := by
  unfold download_body mkstemp at h
  cases hd : env.downloadOk <;> rw [hd] at h <;> simp_all
  obtain ⟨h1, h2⟩ := h
  subst h1
  subst h2
  exact ⟨rfl, rfl⟩

/-- A successful fetch returns the freshly allocated path and advances the
allocation counter by one. -/
theorem fetch_ok_ids (file_id suffix : String) (env : Env) (w : World) (p : LocalPath)
    (w' : World) (h : tg_download_to_temp file_id suffix env w = (Except.ok p, w')) :
    p.id = w.nextId ∧ w'.nextId = w.nextId + 1 := by
  unfold tg_download_to_temp at h
  cases hfs : env.fileSize with
  | none =>
    rw [hfs] at h
    exact download_body_ok_ids suffix env w p w' h
  | some size =>
    rw [hfs] at h
    dsimp only at h
    by_cases hgt : size > env.maxFileMb * 1024 * 1024
    · rw [if_pos hgt] at h
      exact absurd h (by simp)
    · rw [if_neg hgt] at h
      exact download_body_ok_ids suffix env w p w' h

/-- Every reply produced by an `except` clause is a plain text message. -/
theorem except_reply_is_text (e : PipeError) : ∃ s, except_reply e = Reply.text s := by
  cases e <;> exact ⟨_, rfl⟩

/-- `runSteps` issues at most one ffmpeg call per stage. -/
theorem runSteps_calls_le (steps : List FfStep) (src : LocalPath) (env : Env) (idx : Nat)
    (w : World) (acc : List SubprocessCall) :
    (runSteps src steps env idx w acc).2.2.length ≤ acc.length + steps.length := by
  induction steps generalizing src idx w acc with
  | nil => simp [runSteps]
  | cons st rest ih =>
    unfold runSteps
    split
    · simp
    · have h := ih (st src).2 (idx + 1)
        { w with created := w.created ++ [(st src).2] }
        (acc ++ [(run_ffmpeg (st src).1 (env.ffRes idx)).1])
      simp at h ⊢
      omega

/-- When the first ffmpeg invocation fails, `runSteps` stops after that one
call: no automatic re-invocation. -/
theorem runSteps_fail_first (steps : List FfStep) (src : LocalPath) (env : Env)
    (w : World) (acc : List SubprocessCall) (hf : (env.ffRes 0).returncode ≠ 0) :
    (runSteps src steps env 0 w acc).2.2.length ≤ acc.length + 1 := by
  cases steps with
  | nil => simp [runSteps]
  | cons st rest =>
    unfold runSteps
    have hr : (run_ffmpeg (st src).1 (env.ffRes 0)).2 =
        Except.error (PipeError.runtimeError (py_slice_last 4000 (env.ffRes 0).stderr)) := by
      simp [run_ffmpeg, hf]
    rw [hr]
    simp

/-- The three possible outcomes of the delivery tail. -/
theorem deliver_cases (ok : MediaKind) (dst : LocalPath) (env : Env) :
    ((deliver ok dst env).2 = none
      ∧ (deliver ok dst env).1 = [Reply.file ok dst, Reply.text "Готово ✅"])
    ∨ ((deliver ok dst env).1 = [] ∨ (deliver ok dst env).1 = [Reply.file ok dst]) := by
  unfold deliver
  split
  · split
    · exact Or.inl ⟨rfl, rfl⟩
    · exact Or.inr (Or.inr rfl)
  · exact Or.inr (Or.inl rfl)

/-- On a raised exception, the replies already sent by the branch body are
either none or the single delivered file reply. -/
theorem convert_err_replies (file_id sfx : String) (steps : List FfStep) (ok : MediaKind)
    (env : Env) (w : World) (e : PipeError)
    (h : (convert file_id sfx steps ok env w).2 = some e) :
    (convert file_id sfx steps ok env w).1.replies = []
    ∨ ∃ p, (convert file_id sfx steps ok env w).1.replies = [Reply.file ok p] := by
  unfold convert at h ⊢
  split at h
  · left; rfl
  · split at h
    · left; rfl
    · rename_i src w₁ heqF dst w₂ calls heqS
      dsimp only at h ⊢
      rcases deliver_cases ok dst env with ⟨hn, _⟩ | hrep
      · rw [hn] at h
        cases h
      · rcases hrep with h0 | h1
        · exact Or.inl h0
        · exact Or.inr ⟨dst, h1⟩

/-- A conversion branch issues at most one ffmpeg call per stage. -/
theorem convert_calls_le (file_id sfx : String) (steps : List FfStep) (ok : MediaKind)
    (env : Env) (w : World) :
    (convert file_id sfx steps ok env w).1.calls.length ≤ steps.length := by
  unfold convert
  split
  · simp
  · split
    · rename_i xo src w₁ heqF xi e2 w₂ calls heqS
      have hb := runSteps_calls_le steps src env 0 w₁ []
      rw [heqS] at hb
      simpa using hb
    · rename_i xo src w₁ heqF xi dst w₂ calls heqS
      have hb := runSteps_calls_le steps src env 0 w₁ []
      rw [heqS] at hb
      simpa using hb

/-- A conversion branch whose first ffmpeg invocation fails issues no
further ffmpeg call. -/
theorem convert_fail_first (file_id sfx : String) (steps : List FfStep) (ok : MediaKind)
    (env : Env) (w : World) (hf : (env.ffRes 0).returncode ≠ 0) :
    (convert file_id sfx steps ok env w).1.calls.length ≤ 1 := by
  unfold convert
  split
  · simp
  · split
    · rename_i xo src w₁ heqF xi e2 w₂ calls heqS
      have hb := runSteps_fail_first steps src env w₁ [] hf
      rw [heqS] at hb
      simpa using hb
    · rename_i xo src w₁ heqF xi dst w₂ calls heqS
      have hb := runSteps_fail_first steps src env w₁ [] hf
      rw [heqS] at hb
      simpa using hb

/-- Every branch of the `process_media` if-chain is either a conversion
with at most two ffmpeg stages or the wrong-kind fallback. -/
theorem dispatch_shape (action : Action) (m : Message) (env : Env) (w : World) :
    (∃ dfid dsfx steps ok, dispatch action m env w = convert dfid dsfx steps ok env w
        ∧ steps.length ≤ 2)
    ∨ dispatch action m env w = (⟨[Reply.text wrong_kind_hint], w, []⟩, none) := by
  unfold dispatch
  split
  · exact Or.inl ⟨_, _, _, _, rfl, by simp⟩
  · split
    · exact Or.inl ⟨_, _, _, _, rfl, by simp⟩
    · split
      · exact Or.inl ⟨_, _, _, _, rfl, by simp⟩
      · split
        · exact Or.inl ⟨_, _, _, _, rfl, by simp⟩
        · split
          · exact Or.inl ⟨_, _, _, _, rfl, by simp⟩
          · split
            · exact Or.inl ⟨_, _, _, _, rfl, by simp⟩
            · split
              · exact Or.inl ⟨_, _, _, _, rfl, by simp⟩
              · exact Or.inr rfl

/-! ## Claim theorems -/

/-- C1: the claim states that every temporary file created for a pipeline
run is removed from local storage by the time the run ends.  The code
contains no removal call at all: on a successful `video_to_circle` run both
the downloaded source file and the ffmpeg output file are still present
after the run ends (2 remaining files, not 0). -/
theorem c1_temp_files_never_removed :
    (process_media msgV sdVtc envOk w0).err = none
    ∧ (process_media msgV sdVtc envOk w0).world.deleted = []
    ∧ (remaining (process_media msgV sdVtc envOk w0).world).length = 2 := by
  refine ⟨rfl, rfl, by decide⟩

/-- C2 (counterexample): the claim states that the session's selected
operation is cleared after a conversion reaches a terminal outcome.  On a
concrete successful run the handler replies with the converted file, yet
the stored action is still `video_to_circle` afterwards. -/
theorem c2_selection_persists_counterexample :
    (process_media msgV sdVtc envOk w0).err = none
    ∧ (process_media msgV sdVtc envOk w0).replies ≠ []
    ∧ (process_media msgV sdVtc envOk w0).sd.action = some Action.video_to_circle := by
  refine ⟨rfl, by decide, rfl⟩

/-- C2 (amended): `process_media` never modifies the session state: the
selection persists unchanged after every conversion, successful or failed;
it is cleared only by `/start`, back navigation, or opening a category
menu. -/
theorem c2_handler_preserves_session (m : Message) (sd : SessionData) (env : Env) (w : World) :
    (process_media m sd env w).sd = sd := by
  unfold process_media
  cases h : sd.action <;> rfl

/-- C3: whenever the declared size is known and strictly exceeds the
configured `MAX_FILE_MB` ceiling, the fetch fails with the too-large
`HTTPException` before any temp file is created and before any download is
issued, and the failure detail mentions the configured limit. -/
theorem c3_size_ceiling (file_id suffix : String) (env : Env) (w : World) (size : Nat)
    (hs : env.fileSize = some size) (hgt : size > env.maxFileMb * 1024 * 1024) :
    tg_download_to_temp file_id suffix env w =
      (Except.error (PipeError.httpException 400 (too_large_detail size env.maxFileMb)), w)
    ∧ (tg_download_to_temp file_id suffix env w).2.downloads = w.downloads
    ∧ (tg_download_to_temp file_id suffix env w).2.created = w.created
    ∧ ∃ pre suf, too_large_detail size env.maxFileMb =
        pre ++ toString env.maxFileMb ++ suf := by
  have h1 : tg_download_to_temp file_id suffix env w =
      (Except.error (PipeError.httpException 400 (too_large_detail size env.maxFileMb)), w) := by
    unfold tg_download_to_temp
    rw [hs]
    dsimp only
    rw [if_pos hgt]
  exact ⟨h1, by rw [h1], by rw [h1], ⟨_, _, rfl⟩⟩

/-- C3 witness: a 20000000-byte file against the default 18 MB ceiling. -/
theorem c3_size_ceiling_witness :
    tg_download_to_temp "f" ".mp4" envBig w0 =
      (Except.error (PipeError.httpException 400 (too_large_detail 20000000 18)), w0)
    ∧ (tg_download_to_temp "f" ".mp4" envBig w0).2.downloads = w0.downloads
    ∧ (tg_download_to_temp "f" ".mp4" envBig w0).2.created = w0.created
    ∧ ∃ pre suf, too_large_detail 20000000 18 = pre ++ toString 18 ++ suf :=
  c3_size_ceiling "f" ".mp4" envBig w0 20000000 rfl (by decide)

/-- C4: delivering a media kind outside the selected operation's accepted
kinds produces only the wrong-kind hint reply, no download, no temp file,
no ffmpeg call, and leaves the session (including the selection)
unchanged. -/
theorem c4_wrong_kind_frame (a : Action) (k : MediaKind) (f : TgFile) (sd : SessionData)
    (env : Env) (w : World)
    (hsel : sd.action = some a) (hkind : accepts a k = false) :
    process_media (mkMsg k f) sd env w =
      ⟨[Reply.text wrong_kind_hint], w, [], none, sd⟩ := by
  unfold process_media
  rw [hsel]
  cases a <;> cases k <;> simp_all [dispatch, mkMsg, accepts]

/-- C4 witness: a voice message while `circle_to_video` is selected. -/
theorem c4_witness :
    process_media (mkMsg MediaKind.voice ⟨"v9", none⟩)
        ⟨some FlowState.waiting_input, some Action.circle_to_video⟩ envOk w0 =
      ⟨[Reply.text wrong_kind_hint], w0, [], none,
        ⟨some FlowState.waiting_input, some Action.circle_to_video⟩⟩ :=
  c4_wrong_kind_frame Action.circle_to_video MediaKind.voice ⟨"v9", none⟩
    ⟨some FlowState.waiting_input, some Action.circle_to_video⟩ envOk w0 rfl rfl

/-- C5: a non-zero ffmpeg exit status raises a `RuntimeError` carrying the
tail slice `proc.stderr[-4000:]`: a suffix of the diagnostic output whose
length never exceeds 4000 characters. -/
theorem c5_stderr_excerpt_bounded (cmd : List String) (res : FfResult)
    (h : res.returncode ≠ 0) :
    ∃ msg, (run_ffmpeg cmd res).2 = Except.error (PipeError.runtimeError msg)
      ∧ msg.length ≤ 4000 ∧ msg.data <:+ res.stderr.data := by
  refine ⟨py_slice_last 4000 res.stderr, ?_, ?_, ?_⟩
  · simp [run_ffmpeg, h]
  · rw [py_slice_last_length]
    omega
  · rw [py_slice_last_data]
    exact List.drop_suffix _ _

/-- C5 witness: exit status 1 with stderr "boom". -/
theorem c5_witness :
    ∃ msg, (run_ffmpeg ["ffmpeg"] ⟨1, "boom"⟩).2 = Except.error (PipeError.runtimeError msg)
      ∧ msg.length ≤ 4000 ∧ msg.data <:+ ("boom" : String).data :=
  c5_stderr_excerpt_bounded ["ffmpeg"] ⟨1, "boom"⟩ (by decide)

/-- C6 (counterexample): the claim states that every transcode invocation
is bounded by a wall-clock timeout.  The `subprocess.run` call issued by
`run_ffmpeg` carries no timeout argument at all. -/
theorem c6_no_timeout_counterexample :
    ¬ ((run_ffmpeg ["ffmpeg", "-version"] ⟨0, ""⟩).1.timeoutArg.isSome = true) := by
  decide

/-- C6 (amended): every transcode invocation is issued without any timeout
bound; no `transcode_timeout_seconds` configuration exists and no
timeout-termination path exists in the code. -/
theorem c6_run_ffmpeg_no_timeout (cmd : List String) (res : FfResult) :
    (run_ffmpeg cmd res).1.timeoutArg = none := rfl

/-- C7: any two successful fetches, in any interleaving of the atomic
`mkstemp` allocations (modelled as one allocation order), return distinct
local paths, so concurrent conversions never share a temp file. -/
theorem c7_fetch_paths_distinct (fid1 fid2 sfx1 sfx2 : String) (env1 env2 : Env)
    (w w1 w2 : World) (p1 p2 : LocalPath)
    (h1 : tg_download_to_temp fid1 sfx1 env1 w = (Except.ok p1, w1))
    (h2 : tg_download_to_temp fid2 sfx2 env2 w1 = (Except.ok p2, w2)) :
    p1 ≠ p2 := by
  obtain ⟨hi1, hn1⟩ := fetch_ok_ids fid1 sfx1 env1 w p1 w1 h1
  obtain ⟨hi2, _⟩ := fetch_ok_ids fid2 sfx2 env2 w1 p2 w2 h2
  intro he
  rw [he] at hi1
  omega

/-- C7 witness: two consecutive successful fetches from the empty store. -/
theorem c7_witness : (⟨0, ".mp4"⟩ : LocalPath) ≠ ⟨1, ".ogg"⟩ :=
  c7_fetch_paths_distinct "a" "b" ".mp4" ".ogg" envOk envOk w0
    ⟨1, [⟨0, ".mp4"⟩], [], 1⟩ ⟨2, [⟨0, ".mp4"⟩, ⟨1, ".ogg"⟩], [], 2⟩
    ⟨0, ".mp4"⟩ ⟨1, ".ogg"⟩ rfl rfl

/-- C8: every failure raised inside the pipeline is caught by the handler
(the embedding's `except_reply` is total over `PipeError`): the failure
report appears exactly once among the run's replies, the transcode-failure
reply is a fixed text that does not depend on the process's stderr, and
ffmpeg is invoked at most once per stage with no re-invocation after a
failure. -/
theorem c8_failure_handled_locally (m : Message) (sd : SessionData) (env : Env) (w : World)
    (e : PipeError) (h : (process_media m sd env w).err = some e) :
    (process_media m sd env w).replies.filter (fun r => decide (r = except_reply e)) =
      [except_reply e]
    ∧ (∀ s, except_reply (PipeError.runtimeError s) = Reply.text "❌ Ошибка обработки файла.")
    ∧ (process_media m sd env w).calls.length ≤ 2
    ∧ ((env.ffRes 0).returncode ≠ 0 → (process_media m sd env w).calls.length ≤ 1) := by
  unfold process_media at h ⊢
  cases hsd : sd.action with
  | none =>
    rw [hsd] at h
    simp at h
  | some action =>
    rw [hsd] at h
    dsimp only at h
    dsimp only
    rw [h]
    rcases dispatch_shape action m env w with ⟨dfid, dsfx, steps, ok, hd, hlen⟩ | hd
    · rw [hd] at h ⊢
      refine ⟨?_, fun s => rfl, ?_, ?_⟩
      · rcases convert_err_replies dfid dsfx steps ok env w e h with h0 | ⟨p, h1⟩
        · rw [h0]
          simp
        · rw [h1]
          obtain ⟨s, hs⟩ := except_reply_is_text e
          simp [hs]
      · exact le_trans (convert_calls_le dfid dsfx steps ok env w) hlen
      · intro hf
        exact convert_fail_first dfid dsfx steps ok env w hf
    · rw [hd] at h
      cases h

/-- C8 witness: a `video_to_circle` run whose ffmpeg invocation exits with
status 1. -/
theorem c8_witness :
    (process_media msgV sdVtc envFfFail w0).replies.filter
        (fun r => decide (r = except_reply (PipeError.runtimeError "boom"))) =
      [except_reply (PipeError.runtimeError "boom")]
    ∧ (∀ s, except_reply (PipeError.runtimeError s) = Reply.text "❌ Ошибка обработки файла.")
    ∧ (process_media msgV sdVtc envFfFail w0).calls.length ≤ 2
    ∧ ((envFfFail.ffRes 0).returncode ≠ 0 →
        (process_media msgV sdVtc envFfFail w0).calls.length ≤ 1) :=
  c8_failure_handled_locally msgV sdVtc envFfFail w0 (PipeError.runtimeError "boom") (by decide)

/-- C9: operation selection is a last-write-wins single slot: re-selecting
the same operation is idempotent, a later selection overwrites any prior
one, and clearing followed by reading yields no selection; instantiated on
the source handlers `on_text_v_to_circle` and `on_text_back`. -/
theorem c9_selection_single_slot (sd : SessionData) (a b : Action) :
    select (select sd a) a = select sd a
    ∧ current (select (select sd a) b) = some b
    ∧ current (state_clear sd) = none
    ∧ on_text_v_to_circle (on_text_v_to_circle sd) = on_text_v_to_circle sd
    ∧ current (on_text_back sd) = none :=
  ⟨rfl, rfl, rfl, rfl, rfl⟩

/-- C10: in the media-waiting state with no stored action — exactly the
state `cb_audio`/`cb_video` produce — any inbound media is silently
ignored: no reply, no download, no temp file, no ffmpeg call, no session
change. -/
theorem c10_no_action_ignored (m : Message) (sd : SessionData) (env : Env) (w : World)
    (_hw : sd.flowState = some FlowState.waiting_input) (ha : sd.action = none) :
    process_media m sd env w = ⟨[], w, [], none, sd⟩
    ∧ (∀ sd₀ : SessionData, cb_audio sd₀ = ⟨some FlowState.waiting_input, none⟩) := by
  constructor
  · unfold process_media
    rw [ha]
  · intro sd₀
    rfl

/-- C10 witness: a video message in the fresh category-menu state. -/
theorem c10_witness :
    process_media msgV ⟨some FlowState.waiting_input, none⟩ envOk w0 =
      ⟨[], w0, [], none, ⟨some FlowState.waiting_input, none⟩⟩
    ∧ (∀ sd₀ : SessionData, cb_audio sd₀ = ⟨some FlowState.waiting_input, none⟩) :=
  c10_no_action_ignored msgV ⟨some FlowState.waiting_input, none⟩ envOk w0 rfl rfl

end MassiveHelper
